import Mathlib

/-!
Verification of the sqld replication core against its specification.

Shallow embedding of the parts of the sqld repository that the spec's
claims are about:

* src/src/statements.rs — the transaction boundary classifier
  (`StmtKind::kind`, `Statements::state`, `Statements::parse`);
* src/sqld/src/rpc/replication_log.rs — the replication streaming
  service (`log_entries`, `hello`, `snapshot`, `map_frame_stream_output`,
  `StreamGuard`);
* src/sqld/src/rpc/wal_log.rs — the older WAL-log streaming service
  (`WalLogService::stream_pages`);
* src/sqld/src/lib.rs — the hard-reset coordination (`hard_reset`,
  `run_server`);
* src/sqld/src/database/mod.rs — `Database::execute_one`.

Rust `Result` becomes `Except`, `Option` stays `Option`, a `panic!` /
`todo!` / `.unwrap()` failure is modelled as an `Option` `none` at the
function's boundary, and byte buffers become `List Nat`.  Components of
the repository that the claims depend on but whose sources are not part
of the excerpt (`IdleShutdownLayer`, `FrameStream`, `SnapshotFile`,
`WalLogger`, `ReplicationLogger` internals) are modelled from the
spec's words; each such definition says so in its doc comment.
-/

namespace Sqld

/-! ## Transaction boundary classifier (src/src/statements.rs) -/

/-- Statement shapes distinguished by `StmtKind::kind`.  The
`sqlparser` `Statement` AST is external to the repository; only the
constructors named by the `match` in `StmtKind::kind` are
distinguished, everything else is the wildcard `otherStmt` arm. -/
inductive Statement where
  | startTransaction
  | setTransaction
  | commit
  | rollback
  | savepoint
  | otherStmt
  deriving DecidableEq, Repr

/-- Rust enum `StmtKind` from src/src/statements.rs. -/
inductive StmtKind where
  | txnBegin
  | txnEnd
  | other
  deriving DecidableEq, Repr

/-- Embeds `StmtKind::kind`.  The `SetTransaction` and `Savepoint` arms
are `todo!(..)` in the source, i.e. a panic: modelled as `none`. -/
def StmtKind.kind : Statement → Option StmtKind
  | .startTransaction => some .txnBegin
  | .setTransaction => none
  | .rollback => some .txnEnd
  | .commit => some .txnEnd
  | .savepoint => none
  | .otherStmt => some .other

/-- Rust enum `State` from src/src/statements.rs (also re-exported as
`query_analysis::State`, the type `Database::execute_one` returns). -/
inductive State where
  | txnOpened
  | txnClosed
  | start
  | invalid
  deriving DecidableEq, Repr

/-- One step of the fold inside `Statements::state`, arm for arm in the
source's order (Lean's `match` also picks the first matching arm, so
the overlap between the `(state, Other)` arm and the `(Invalid, _)` arm
is resolved the same way as in Rust). -/
def stateStep : State → StmtKind → State
  | .txnOpened, .txnBegin => .invalid
  | .txnClosed, .txnEnd => .invalid
  | .txnOpened, .txnEnd => .txnClosed
  | .txnClosed, .txnBegin => .txnOpened
  | s, .other => s
  | .invalid, _ => .invalid
  | .start, .txnBegin => .txnOpened
  | .start, .txnEnd => .txnClosed

/-- Rust struct `Statements` from src/src/statements.rs. -/
structure Statements where
  stmts : String
  kinds : List StmtKind
  deriving DecidableEq, Repr

/-- Embeds `Statements::state`: left fold of `stateStep` over the
statement kinds, starting from the given state. -/
def Statements.state (self : Statements) (s : State) : State :=
  self.kinds.foldl stateStep s

/-- Embeds `statements.iter().map(StmtKind::kind).collect()`: the
per-statement classification of a statement list; the first `todo!`
panic (a `none` from `StmtKind.kind`) aborts the whole collection. -/
def kindsOf : List Statement → Option (List StmtKind)
  | [] => some []
  | st :: rest =>
    match StmtKind.kind st, kindsOf rest with
    | some k, some ks => some (k :: ks)
    | _, _ => none

/-- Embeds `Statements::parse`.  `Parser::parse_sql` belongs to the
external `sqlparser` crate, so its result (parse error or statement
list) is an input here; the `?` operator propagates the parse error.
Mapping `StmtKind::kind` over the statements panics (`todo!`) on an
unhandled statement, modelled as the outer `none`. -/
def Statements.parse (s : String) (parsed : Except String (List Statement)) :
    Option (Except String Statements) :=
  match parsed with
  | .error e => some (.error e)
  | .ok stmts =>
    match kindsOf stmts with
    | none => none
    | some kinds => some (.ok ⟨s, kinds⟩)

/-- Transition table exactly as the spec prints it (section 4.1), one
cell per row/column entry — written from the spec's words, to be
compared with `stateStep`, which is written from the source. -/
def specTable : State → StmtKind → State
  | .start, .txnBegin => .txnOpened
  | .start, .txnEnd => .txnClosed
  | .start, .other => .start
  | .txnOpened, .txnBegin => .invalid
  | .txnOpened, .txnEnd => .txnClosed
  | .txnOpened, .other => .txnOpened
  | .txnClosed, .txnBegin => .txnOpened
  | .txnClosed, .txnEnd => .invalid
  | .txnClosed, .other => .txnClosed
  | .invalid, _ => .invalid

/-! ## Replication log streaming service (src/sqld/src/rpc/replication_log.rs) -/

/-- Subset of `tonic::Code` used by the embedded functions. -/
inductive Code where
  | failedPrecondition
  | internal
  | outOfRange
  | unavailable
  deriving DecidableEq, Repr

/-- Embeds `tonic::Status`: a code plus a message. -/
structure Status where
  code : Code
  message : String
  deriving DecidableEq, Repr

def NO_HELLO_ERROR_MSG : String := "NO_HELLO"

def NEED_SNAPSHOT_ERROR_MSG : String := "NEED_SNAPSHOT"

/-- Rust enum `crate::replication::LogReadError`. -/
inductive LogReadError where
  | snapshotRequired
  | ahead
  | err (msg : String)
  deriving DecidableEq, Repr

/-- Embeds `crate::replication::frame::Frame` by its byte payload. -/
structure ReplFrame where
  bytes : List Nat
  deriving DecidableEq, Repr

/-- Protobuf message `Frame { data }` sent on the wire. -/
structure RpcFrame where
  data : List Nat
  deriving DecidableEq, Repr

/-- Embeds `map_frame_stream_output`, arm for arm from the source: it
turns each item of the underlying frame stream into the item the
replica receives. -/
def map_frame_stream_output :
    Except LogReadError ReplFrame → Except Status RpcFrame
  | .ok frame => .ok ⟨frame.bytes⟩
  | .error .snapshotRequired =>
      .error ⟨.failedPrecondition, NEED_SNAPSHOT_ERROR_MSG⟩
  | .error (.err e) => .error ⟨.internal, e⟩
  | .error .ahead => .error ⟨.outOfRange, "frame not yet available"⟩

/-- Replica network identity (`SocketAddr`), opaque here. -/
abbrev Addr := Nat

/-- Modelled from the spec: `SnapshotFile`
(`crate::replication::snapshot`) is not under src/.  Per the spec a
snapshot is an immutable offset-indexed artifact; `frames` holds the
result of each per-offset read of it (frame data, or a storage
error). -/
structure SnapshotFile where
  frames : List (Except String (List Nat))

/-- Modelled from the spec: the restartable frame iterator
`SnapshotFile::frames_iter_from(offset)` — the snapshot's per-offset
read results from the requested offset on. -/
def SnapshotFile.frames_iter_from (sf : SnapshotFile) (offset : Nat) :
    List (Except String (List Nat)) :=
  sf.frames.drop offset

/-- Modelled from the spec: the fields of `ReplicationLogger` that the
embedded service methods read.  The logger's implementation is not
under src/; its snapshot lookup returns the covering snapshot, none,
or a storage error, and the database / generation metadata are opaque
tokens. -/
structure ReplicationLogger where
  get_snapshot_file : Nat → Except String (Option SnapshotFile)
  database_id : String
  generation_start_index : Nat
  generation_id : String

/-- State of a `ReplicationLogService`: the hello-registration set
(`replicas_with_hello`), the logger, and whether an idle-shutdown
layer was supplied (`idle_shutdown_layer.is_some()`). -/
structure ReplicationLogService where
  logger : ReplicationLogger
  replicas_with_hello : List Addr
  idle_shutdown_present : Bool

/-- Protobuf message `HelloResponse`. -/
structure HelloResponse where
  database_id : String
  generation_start_index : Nat
  generation_id : String
  deriving DecidableEq, Repr

deriving instance DecidableEq for Except

/-- Result of an RPC that opens a stream: either an error `Status`
returned up front (no stream is opened), or the sequence of items the
opened stream delivers. -/
inductive StreamResult where
  | err (s : Status)
  | stream (items : List (Except Status RpcFrame))
  deriving DecidableEq, Repr

/-- Embeds `ReplicationLogService::hello`: a missing remote address is
an internal error; otherwise the address is inserted into
`replicas_with_hello` (a `HashSet`, so inserting a present element
changes nothing) and the generation metadata is returned. -/
def ReplicationLogService.hello (self : ReplicationLogService)
    (remote_addr : Option Addr) :
    ReplicationLogService × Except Status HelloResponse :=
  match remote_addr with
  | none => (self, .error ⟨.internal, "No remote RPC address"⟩)
  | some replica_addr =>
    let selfWith :=
      { self with replicas_with_hello :=
          if replica_addr ∈ self.replicas_with_hello then
            self.replicas_with_hello
          else replica_addr :: self.replicas_with_hello }
    (selfWith, .ok ⟨self.logger.database_id,
      self.logger.generation_start_index, self.logger.generation_id⟩)

/-- Modelled from the spec: the item sequence of
`FrameStream::new(logger, next_offset)`.  `FrameStream`
(`crate::replication::primary::frame_stream`) is not under src/; the
spec says the live tailing stream emits the log's frames from the
requested offset on, so its items are kept abstract here as a function
of the requested offset.  `log_entries` only wraps this sequence. -/
structure FrameStreamModel where
  items : Nat → List (Except LogReadError ReplFrame)

/-- Embeds `ReplicationLogService::log_entries`: reject a missing
remote address with an internal error, then reject a caller whose
address is not in `replicas_with_hello` with
`failed_precondition(NO_HELLO_ERROR_MSG)`; only then wrap the frame
stream in the `StreamGuard` and map every item with
`map_frame_stream_output`. -/
def ReplicationLogService.log_entries (self : ReplicationLogService)
    (fs : FrameStreamModel) (remote_addr : Option Addr)
    (next_offset : Nat) : StreamResult :=
  match remote_addr with
  | none => .err ⟨.internal, "No remote RPC address"⟩
  | some replica_addr =>
    if replica_addr ∈ self.replicas_with_hello then
      .stream ((fs.items next_offset).map map_frame_stream_output)
    else .err ⟨.failedPrecondition, NO_HELLO_ERROR_MSG⟩

/-- Embeds the sender loop spawned by `ReplicationLogService::snapshot`:
`Some(Ok(data))` sends the frame and continues, `Some(Err(e))` sends an
internal-error status and breaks, `None` breaks. -/
def snapshotSenderItems :
    List (Except String (List Nat)) → List (Except Status RpcFrame)
  | [] => []
  | .ok data :: rest => .ok ⟨data⟩ :: snapshotSenderItems rest
  | .error e :: _ => [.error ⟨.internal, e⟩]

/-- Embeds `ReplicationLogService::snapshot`.  Unlike `log_entries`,
the source never reads `req.remote_addr()` nor `replicas_with_hello`
here; the request's address is accepted but unused (`_remote_addr`).
The `Err(e)` arm for a panicked `spawn_blocking` join cannot fire in
this sequential model. -/
def ReplicationLogService.snapshot (self : ReplicationLogService)
    (_remote_addr : Option Addr) (offset : Nat) : StreamResult :=
  match self.logger.get_snapshot_file offset with
  | .ok (some snapshot) =>
      .stream (snapshotSenderItems (snapshot.frames_iter_from offset))
  | .ok none => .err ⟨.unavailable, "snapshot not found"⟩
  | .error e => .err ⟨.internal, e⟩

/-! ## StreamGuard and idle-shutdown accounting
(src/sqld/src/rpc/replication_log.rs, `StreamGuard`) -/

/-- Operations on the connected-replica count.  `IdleShutdownLayer`
(utils/services/idle_shutdown.rs) is not under src/; modelled from the
spec: it holds the process-wide connected-replica count,
`add_connected_replica` increments it, `remove_connected_replica`
decrements it. -/
inductive CountEvent where
  | increment
  | decrement
  deriving DecidableEq, Repr

/-- Applies a sequence of count events to the connected-replica count. -/
def applyCountEvents (c : Nat) : List CountEvent → Nat
  | [] => c
  | .increment :: rest => applyCountEvents (c + 1) rest
  | .decrement :: rest => applyCountEvents (c - 1) rest

/-- Embeds `StreamGuard::new`: it calls `add_connected_replica` iff an
idle-shutdown layer is present. -/
def StreamGuard.newEvents (idle_shutdown_present : Bool) : List CountEvent :=
  if idle_shutdown_present then [.increment] else []

/-- Embeds `impl Drop for StreamGuard`: it calls
`remove_connected_replica` iff an idle-shutdown layer is present. -/
def StreamGuard.dropEvents (idle_shutdown_present : Bool) : List CountEvent :=
  if idle_shutdown_present then [.decrement] else []

/-- Ways a streaming session can end, as the claim enumerates them. -/
inductive TerminationMode where
  | normalClose
  | transportError
  | cancelled
  deriving DecidableEq, Repr

/-- Count events of one full LogEntries session: the guard is
constructed when the stream is established, and by Rust's ownership
rules its `Drop` runs exactly once when the boxed stream is released —
whichever way the session ends (normal close, transport error, or
cancellation/early drop alike); polling the stream
(`Stream::poll_next` of `StreamGuard`) touches no count. -/
def sessionCountEvents (present : Bool) (_mode : TerminationMode) :
    List CountEvent :=
  StreamGuard.newEvents present ++ StreamGuard.dropEvents present

/-! ## WAL log streaming service (src/sqld/src/rpc/wal_log.rs) -/

/-- Modelled from the spec: `WalLogger` is not under src/.  The log is
the ordered collection of per-offset read results;
`frame_bytes(offset)` returns the appended frame's bytes, nothing when
the log has not reached `offset`, or a storage error. -/
abbrev WalLog := List (Except String (List Nat))

/-- Modelled from the spec: `WalLogger::frame_bytes(offset)` —
`Ok(Some(data))` for an appended frame, `Ok(None)` when the log has
not reached `offset`, `Err` on a storage failure. -/
def frame_bytes (log : WalLog) (offset : Nat) :
    Except String (Option (List Nat)) :=
  match log.get? offset with
  | none => .ok none
  | some (.ok d) => .ok (some d)
  | some (.error e) => .error e

/-- How the `spawn_blocking` producer loop of
`WalLogService::stream_pages` ends.  `endOfLog` is the
`Ok(None) => break` arm (the sender is dropped and the stream ends
cleanly); `panicked` is the `Err(e) => todo!(..)` arm (the task
panics, the sender is dropped, and the stream also just ends — no
error item is ever sent). -/
inductive StreamTermination where
  | endOfLog
  | panicked
  deriving DecidableEq, Repr

/-- Body of the `stream_pages` producer loop over the remaining log
suffix: emit each frame in order, stop at the first missing offset
(`endOfLog`) or at the first read error (`panicked`). -/
def streamPagesLoop :
    List (Except String (List Nat)) →
      List (Except Status RpcFrame) × StreamTermination
  | [] => ([], .endOfLog)
  | .ok data :: rest =>
    (.ok ⟨data⟩ :: (streamPagesLoop rest).1, (streamPagesLoop rest).2)
  | .error _ :: _ => ([], .panicked)

/-- Embeds `WalLogService::stream_pages`: the loop reads
`frame_bytes` at `start_id`, `start_id + 1`, … — exactly a traversal
of `log.drop start_id` (the lemma `stream_pages_step` below recovers
the loop-shaped characterization in terms of `frame_bytes`).  The
result is the item sequence sent into the channel plus how the
producer ended.  (The `blocking_send` failure arm only fires once the
consumer is gone and sends nothing; it is not modelled.) -/
def stream_pages (log : WalLog) (start_id : Nat) :
    List (Except Status RpcFrame) × StreamTermination :=
  streamPagesLoop (log.drop start_id)

/-- Decidable shape test used to state that a stream item is a frame,
not an error status. -/
def isOkItem : Except Status RpcFrame → Bool
  | .ok _ => true
  | .error _ => false

/-! ## Hard-reset coordination (src/sqld/src/lib.rs) -/

/-- State-changing actions `run_server` / `hard_reset` perform. -/
inductive SystemAction where
  | startServices
  | shutdownServices
  | awaitServices
  | removeDbDir
  | returnFromServer
  deriving DecidableEq, Repr

/-- Embeds `hard_reset`: shut down all services
(`system.shutdown()`), await them (`system.await`), then remove the
whole database directory (`tokio::fs::remove_dir_all(db_path)`) — in
that order. -/
def hard_reset_actions : List SystemAction :=
  [.shutdownServices, .awaitServices, .removeDbDir]

/-- Ways one iteration of `run_server`'s inner select loop can wake
up: the `HARD_RESET` notification, the `SHUTDOWN` notification, or
the system future completing. -/
inductive ServerSignal where
  | hardReset
  | shutdownReq
  | systemExited
  deriving DecidableEq, Repr

/-- Embeds `run_server`'s loop as the sequence of state-changing
actions it performs, given the sequence of signals its selects
observe: each outer iteration starts the services
(`start_primary` / `start_replica`); a hard-reset signal runs
`hard_reset` and re-enters the outer loop; a shutdown signal or a
system exit returns from `run_server`.  An empty remaining signal
list means the server is still parked in the select. -/
def run_server_actions : List ServerSignal → List SystemAction
  | [] => [.startServices]
  | sig :: rest =>
    .startServices ::
      match sig with
      | .hardReset => hard_reset_actions ++ run_server_actions rest
      | .shutdownReq => [.returnFromServer]
      | .systemExited => [.returnFromServer]

/-! ## Database::execute_one (src/sqld/src/database/mod.rs) -/

/-- Opaque query payload (`crate::query::Query`). -/
structure Query where
  payload : Nat
  deriving DecidableEq, Repr

/-- Opaque query result payload (`crate::query::QueryResult`). -/
structure QueryResult where
  payload : Nat
  deriving DecidableEq, Repr

/-- Rust struct `Queries` from crate::query, as `execute_one` builds
it. -/
structure Queries where
  queries : List Query
  is_transactional : Bool
  deriving DecidableEq, Repr

/-- A `Database` implementation, represented by its one required
method, `execute_batch`: it returns (under an outer `Result`) the
per-batch result vector (itself a `Result`) and the connection state
after the batch. -/
def ExecuteBatchFn :=
  Queries → Except String (Except String (List QueryResult) × State)

/-- Embeds the default body of `Database::execute_one`: wrap the query
in a one-element, non-transactional batch, call `execute_batch`,
propagate both `?`s, then `results.drain(..).next().unwrap()` — the
`unwrap` of an empty result vector is a panic, modelled as `none`. -/
def execute_one (execute_batch : ExecuteBatchFn) (query : Query) :
    Option (Except String (QueryResult × State)) :=
  match execute_batch ⟨[query], false⟩ with
  | .error e => some (.error e)
  | .ok (.error e, _) => some (.error e)
  | .ok (.ok results, state) =>
    match results with
    | [] => none
    | r :: _ => some (.ok (r, state))

/-! ## Concrete instances used by witnesses and counterexamples -/

/-- A service whose hello set is empty and whose logger has a snapshot
covering every offset. -/
def cNoHelloService : ReplicationLogService where
  logger :=
    { get_snapshot_file := fun _ => .ok (some ⟨[.ok [1, 2, 3]]⟩)
      database_id := "db1"
      generation_start_index := 0
      generation_id := "gen1" }
  replicas_with_hello := []
  idle_shutdown_present := false

/-- A service whose logger has no snapshot at any offset. -/
def cUnavailService : ReplicationLogService where
  logger :=
    { get_snapshot_file := fun _ => .ok none
      database_id := "db2"
      generation_start_index := 0
      generation_id := "gen2" }
  replicas_with_hello := []
  idle_shutdown_present := false

/-- A frame stream model that is empty at every offset. -/
def cFrameStream : FrameStreamModel where
  items := fun _ => []

/-- A one-frame WAL log. -/
def cWalLog : WalLog := [.ok [1]]

/-- A WAL log whose offset-1 read fails, with a further frame at
offset 2. -/
def cErrWalLog : WalLog := [.ok [1], .error "io error", .ok [2]]

/-- A batch function returning one result per query. -/
def cBatchFn : ExecuteBatchFn := fun qs =>
  .ok (.ok (qs.queries.map fun q => ⟨q.payload⟩), .start)

/-- A batch function returning an empty result vector. -/
def cEmptyBatchFn : ExecuteBatchFn := fun _ => .ok (.ok [], .start)

/-! ## Helper lemmas -/

theorem state_step_eq_specTable (s : State) (k : StmtKind) :
    stateStep s k = specTable s k := by
  cases s <;> cases k <;> rfl

theorem stateStep_funext : stateStep = specTable :=
  funext fun s => funext fun k => state_step_eq_specTable s k

theorem invalid_absorbing (ks : List StmtKind) :
    ks.foldl stateStep State.invalid = State.invalid := by
  induction ks with
  | nil => rfl
  | cons k ks ih => cases k <;> simpa [List.foldl, stateStep] using ih

theorem kindsOf_eq_none_of_mem {st : Statement} {stmts : List Statement}
    (hmem : st ∈ stmts) (hnone : StmtKind.kind st = none) :
    kindsOf stmts = none := by
  induction stmts with
  | nil => cases hmem
  | cons a rest ih =>
    rcases List.mem_cons.mp hmem with rfl | hmem
    · simp [kindsOf, hnone]
    · cases h : StmtKind.kind a <;> simp [kindsOf, h, ih hmem]

/-! ## Claim theorems -/

/-- C2: for every sequence of parsed statements and every starting
transaction state, the classifier computes the final state as a
deterministic left-to-right fold using exactly the spec's transition
table, and the five concrete classifications listed by the claim come
out as stated:  classify([BEGIN]) from Start = TxnOpened,
classify([BEGIN, COMMIT]) from Start = TxnClosed,
classify([BEGIN, BEGIN]) from Start = Invalid,
classify([COMMIT]) from Start = TxnClosed, and
classify([SELECT 1]) from TxnOpened = TxnOpened. -/
theorem claim_C2 :
    (∀ (s : State) (k : StmtKind), stateStep s k = specTable s k) ∧
    (∀ (st : Statements) (s : State),
      st.state s = st.kinds.foldl specTable s) ∧
    Statements.parse "BEGIN" (.ok [.startTransaction]) =
      some (.ok ⟨"BEGIN", [.txnBegin]⟩) ∧
    (Statements.mk "BEGIN" [.txnBegin]).state .start = .txnOpened ∧
    Statements.parse "BEGIN; COMMIT" (.ok [.startTransaction, .commit]) =
      some (.ok ⟨"BEGIN; COMMIT", [.txnBegin, .txnEnd]⟩) ∧
    (Statements.mk "BEGIN; COMMIT" [.txnBegin, .txnEnd]).state .start =
      .txnClosed ∧
    (Statements.mk "BEGIN; BEGIN" [.txnBegin, .txnBegin]).state .start =
      .invalid ∧
    (Statements.mk "COMMIT" [.txnEnd]).state .start = .txnClosed ∧
    Statements.parse "SELECT 1" (.ok [.otherStmt]) =
      some (.ok ⟨"SELECT 1", [.other]⟩) ∧
    (Statements.mk "SELECT 1" [.other]).state .txnOpened = .txnOpened := by
  refine ⟨state_step_eq_specTable, fun st s => ?_,
    by decide, by decide, by decide, by decide, by decide, by decide,
    by decide, by decide⟩
  rw [Statements.state, stateStep_funext]

/-- C6: the Invalid transaction state is absorbing under the
classifier fold: starting from Invalid every kind sequence ends in
Invalid, and any extension of a statement sequence whose fold already
reached Invalid still ends in Invalid. -/
theorem claim_C6 :
    (∀ (doc : String) (ks : List StmtKind),
      (Statements.mk doc ks).state .invalid = .invalid) ∧
    (∀ (doc : String) (xs ys : List StmtKind) (s : State),
      (Statements.mk doc xs).state s = .invalid →
      (Statements.mk doc (xs ++ ys)).state s = .invalid) := by
  constructor
  · intro doc ks
    exact invalid_absorbing ks
  · intro doc xs ys s h
    have hx : xs.foldl stateStep s = .invalid := h
    show (xs ++ ys).foldl stateStep s = .invalid
    rw [List.foldl_append, hx]
    exact invalid_absorbing ys

/-- C6 witness: the absorbing step applied at the concrete sequence
BEGIN; BEGIN extended by a trailing Other statement. -/
theorem claim_C6_witness :
    (Statements.mk "BEGIN; BEGIN" [StmtKind.txnBegin, .txnBegin]).state
        .start = .invalid ∧
    (Statements.mk "BEGIN; BEGIN; SELECT 1"
        ([StmtKind.txnBegin, .txnBegin] ++ [.other])).state .start =
      .invalid :=
  ⟨by decide,
    claim_C6.2 "BEGIN; BEGIN; SELECT 1" [.txnBegin, .txnBegin] [.other]
      .start (by decide)⟩

/-- C8: a statement kind the classifier does not handle (SET
TRANSACTION or SAVEPOINT) makes classification fail loudly (the
`todo!` panic, modelled as `none`) rather than silently assigning it a
kind — in particular `StmtKind::kind` yields no kind for those
statements and `Statements::parse` of a batch containing one produces
no `Statements` value at all — while a parse failure of the input SQL
text is surfaced to the caller as a parse error. -/
theorem claim_C8 :
    (∀ (s e : String), Statements.parse s (.error e) = some (.error e)) ∧
    StmtKind.kind .setTransaction = none ∧
    StmtKind.kind .savepoint = none ∧
    (∀ (s : String) (stmts : List Statement),
      (Statement.setTransaction ∈ stmts ∨ Statement.savepoint ∈ stmts) →
      Statements.parse s (.ok stmts) = none) := by
  refine ⟨fun s e => rfl, rfl, rfl, fun s stmts hmem => ?_⟩
  have hnone : kindsOf stmts = none := by
    rcases hmem with h | h
    · exact kindsOf_eq_none_of_mem h rfl
    · exact kindsOf_eq_none_of_mem h rfl
  simp [Statements.parse, hnone]

/-- C8 witness: a batch holding a SET TRANSACTION statement next to an
ordinary statement panics instead of classifying. -/
theorem claim_C8_witness :
    (Statement.setTransaction ∈
        [Statement.otherStmt, .setTransaction] ∨
      Statement.savepoint ∈ [Statement.otherStmt, .setTransaction]) ∧
    Statements.parse "SELECT 1; SET TRANSACTION READ ONLY"
      (.ok [.otherStmt, .setTransaction]) = none :=
  ⟨Or.inl (by decide),
    claim_C8.2.2.2 "SELECT 1; SET TRANSACTION READ ONLY"
      [.otherStmt, .setTransaction] (Or.inl (by decide))⟩

/-- C1 counterexample: with an empty hello-registration set (so the
caller at address 42 has never completed a Hello) and a snapshot
covering offset 0, a Snapshot request is served a stream — it is not
rejected with the NO_HELLO failed-precondition error, because
`ReplicationLogService::snapshot` performs no registration check. -/
theorem claim_C1_counterexample :
    (42 : Addr) ∉ cNoHelloService.replicas_with_hello ∧
    cNoHelloService.snapshot (some 42) 0 =
      .stream [.ok ⟨[1, 2, 3]⟩] ∧
    cNoHelloService.snapshot (some 42) 0 ≠
      .err ⟨.failedPrecondition, NO_HELLO_ERROR_MSG⟩ := by
  refine ⟨by decide, rfl, by decide⟩

/-- C1 (amended): a LogEntries request from an identity that has not
completed a Hello fails with the NO_HELLO failed-precondition error
and opens no stream, and after a successful Hello from the same
identity a LogEntries request from it is served the frame stream (in
particular it is not rejected with NO_HELLO); the Snapshot operation,
however, performs no Hello check at all — its outcome is independent
of the registration set. -/
theorem claim_C1 (svc : ReplicationLogService) (fs : FrameStreamModel)
    (addr : Addr) (off : Nat) :
    (addr ∉ svc.replicas_with_hello →
      svc.log_entries fs (some addr) off =
        .err ⟨.failedPrecondition, NO_HELLO_ERROR_MSG⟩) ∧
    ((svc.hello (some addr)).1.log_entries fs (some addr) off =
      .stream ((fs.items off).map map_frame_stream_output)) ∧
    (∀ regs : List Addr,
      ReplicationLogService.snapshot
          { svc with replicas_with_hello := regs } (some addr) off =
        svc.snapshot (some addr) off) := by
  refine ⟨fun hno => ?_, ?_, fun regs => rfl⟩
  · simp [ReplicationLogService.log_entries, hno]
  · by_cases hmem : addr ∈ svc.replicas_with_hello <;>
      simp [ReplicationLogService.hello, ReplicationLogService.log_entries,
        hmem]

/-- C1 witness: the theorem applied to the concrete service with an
empty registration set and caller address 7. -/
theorem claim_C1_witness :
    cNoHelloService.log_entries cFrameStream (some 7) 0 =
      .err ⟨.failedPrecondition, NO_HELLO_ERROR_MSG⟩ :=
  (claim_C1 cNoHelloService cFrameStream 7 0).1 (by decide)

/-- C7: a Snapshot request whose offset has no covering snapshot (the
lookup returns none) fails with the "unavailable" condition and opens
no stream; when a covering snapshot exists, the request is served the
finite sequence of the snapshot's frames from the requested offset on,
and when all of those reads succeed the stream is exactly those frames
and ends normally (a storage failure mid-snapshot instead appends one
explicit internal-error item and ends). -/
theorem claim_C7 (svc : ReplicationLogService) (a : Option Addr)
    (off : Nat) :
    (svc.logger.get_snapshot_file off = .ok none →
      svc.snapshot a off = .err ⟨.unavailable, "snapshot not found"⟩) ∧
    (∀ sf : SnapshotFile, svc.logger.get_snapshot_file off = .ok (some sf) →
      svc.snapshot a off =
        .stream (snapshotSenderItems (sf.frames_iter_from off))) ∧
    (∀ ds : List (List Nat),
      snapshotSenderItems (ds.map Except.ok) =
        ds.map fun d => .ok ⟨d⟩) := by
  refine ⟨fun hnone => ?_, fun sf hsf => ?_, fun ds => ?_⟩
  · simp [ReplicationLogService.snapshot, hnone]
  · simp [ReplicationLogService.snapshot, hsf]
  · induction ds with
    | nil => rfl
    | cons d rest ih => simp [snapshotSenderItems, ih]

/-- C7 witness: the theorem applied to a service with no snapshot at
offset 3, and to the concrete service whose snapshot covers offset 0. -/
theorem claim_C7_witness :
    cUnavailService.snapshot (some 7) 3 =
      .err ⟨.unavailable, "snapshot not found"⟩ ∧
    cNoHelloService.snapshot (some 7) 0 =
      .stream (snapshotSenderItems
        (SnapshotFile.frames_iter_from ⟨[.ok [1, 2, 3]]⟩ 0)) :=
  ⟨(claim_C7 cUnavailService (some 7) 3).1 rfl,
    (claim_C7 cNoHelloService (some 7) 0).2.1 ⟨[.ok [1, 2, 3]]⟩ rfl⟩

/-- C3: establishing a LogEntries session increments the
connected-replica count exactly once when the idle-shutdown accounting
is present (and not at all otherwise), its termination decrements it
exactly once — the same for all three termination modes, since the
guard's construction and its single guaranteed drop are the only count
operations — and the count returns to its value before the session. -/
theorem claim_C3 (present : Bool) (mode : TerminationMode) (c : Nat) :
    applyCountEvents c (sessionCountEvents present mode) = c ∧
    (sessionCountEvents present mode).count CountEvent.increment =
      (if present then 1 else 0) ∧
    (sessionCountEvents present mode).count CountEvent.decrement =
      (if present then 1 else 0) := by
  cases present <;>
    simp [sessionCountEvents, StreamGuard.newEvents, StreamGuard.dropEvents,
      applyCountEvents]

/-- Loop-shaped characterization of `stream_pages` in terms of
`frame_bytes`, matching the source's `loop` arm for arm. -/
theorem stream_pages_step (log : WalLog) (start_id : Nat) :
    (frame_bytes log start_id = .ok none →
      stream_pages log start_id = ([], .endOfLog)) ∧
    (∀ d, frame_bytes log start_id = .ok (some d) →
      stream_pages log start_id =
        (.ok ⟨d⟩ :: (stream_pages log (start_id + 1)).1,
          (stream_pages log (start_id + 1)).2)) ∧
    (∀ e, frame_bytes log start_id = .error e →
      stream_pages log start_id = ([], .panicked)) := by
  rcases hg : log[start_id]? with _ | x
  · have hlen : log.length ≤ start_id := List.getElem?_eq_none_iff.mp hg
    have hdrop : log.drop start_id = [] := List.drop_eq_nil_of_le hlen
    refine ⟨fun _ => ?_, fun d hd => ?_, fun e he => ?_⟩
    · simp [stream_pages, hdrop, streamPagesLoop]
    · simp [frame_bytes, hg] at hd
    · simp [frame_bytes, hg] at he
  · obtain ⟨hlt, hval⟩ := List.getElem?_eq_some_iff.mp hg
    have hdrop : log.drop start_id = x :: log.drop (start_id + 1) := by
      rw [List.drop_eq_getElem_cons hlt, hval]
    rcases x with e0 | d0
    · refine ⟨fun h => ?_, fun d hd => ?_, fun e he => ?_⟩
      · simp [frame_bytes, hg] at h
      · simp [frame_bytes, hg] at hd
      · simp [stream_pages, hdrop, streamPagesLoop]
    · refine ⟨fun h => ?_, fun d hd => ?_, fun e he => ?_⟩
      · simp [frame_bytes, hg] at h
      · simp [frame_bytes, hg] at hd
        subst hd
        simp [stream_pages, hdrop, streamPagesLoop]
      · simp [frame_bytes, hg] at he

/-- C4 counterexample: the one-frame WAL log read from offset 5 — an
Ahead condition, the offset is past the log end — yields a stream that
has already ended, normally, with no frames delivered and no waiting
(`Ok(None) => break` in `stream_pages`), so an Ahead condition is
terminal there; and an Ahead item that does reach
`map_frame_stream_output` is surfaced to the replica as an OutOfRange
error status, not suppressed. -/
theorem claim_C4_counterexample :
    cWalLog.length ≤ 5 ∧
    stream_pages cWalLog 5 = ([], .endOfLog) ∧
    map_frame_stream_output (.error .ahead) =
      .error ⟨.outOfRange, "frame not yet available"⟩ :=
  ⟨by decide, rfl, rfl⟩

/-- C4 (amended): in `WalLogService`, a LogEntries stream whose
requested offset is at or beyond the current log end ends immediately
and normally — no frames, no error item, no waiting — rather than
waiting for the frame to be appended; and in `ReplicationLogService`,
an Ahead item that reaches the frame-stream output mapping is
surfaced to the replica as an OutOfRange error status (the source
comments that it should have been caught earlier). -/
theorem claim_C4 (log : WalLog) (start_id : Nat)
    (h : log.length ≤ start_id) :
    stream_pages log start_id = ([], .endOfLog) ∧
    map_frame_stream_output (.error .ahead) =
      .error ⟨.outOfRange, "frame not yet available"⟩ := by
  constructor
  · simp [stream_pages, List.drop_eq_nil_of_le h, streamPagesLoop]
  · rfl

/-- C4 witness: the theorem applied to the concrete one-frame log and
offset 5. -/
theorem claim_C4_witness :
    stream_pages cWalLog 5 = ([], .endOfLog) ∧
    map_frame_stream_output (.error .ahead) =
      .error ⟨.outOfRange, "frame not yet available"⟩ :=
  claim_C4 cWalLog 5 (by decide)

theorem streamPagesLoop_all_ok (l : List (Except String (List Nat))) :
    ((streamPagesLoop l).1.all isOkItem) = true := by
  induction l with
  | nil => rfl
  | cons x rest ih =>
    cases x with
    | ok d => simpa [streamPagesLoop, isOkItem] using ih
    | error e => rfl

theorem snapshotSenderItems_append_ok (ds : List (List Nat))
    (tail : List (Except String (List Nat))) :
    snapshotSenderItems (ds.map Except.ok ++ tail) =
      ds.map (fun d => .ok ⟨d⟩) ++ snapshotSenderItems tail := by
  induction ds with
  | nil => rfl
  | cons d rest ih => simp [snapshotSenderItems, ih]

/-- C5 counterexample: a WAL log whose offset-1 read fails, with a
frame still appended at offset 2.  The LogEntries stream of
`WalLogService` delivers the offset-0 frame and then just ends — the
producer panics (`Err(e) => todo!`), the channel closes, and no
explicit error item is ever sent — while the offset-2 frame remains
undelivered: silently-truncated data, contradicting the claim. -/
theorem claim_C5_counterexample :
    frame_bytes cErrWalLog 1 = .error "io error" ∧
    stream_pages cErrWalLog 0 = ([.ok ⟨[1]⟩], .panicked) ∧
    frame_bytes cErrWalLog 2 = .ok (some [2]) :=
  ⟨rfl, rfl, rfl⟩

/-- C5 (amended): in `ReplicationLogService`, a Compacted report for
the requested offset is surfaced as the explicit
FailedPrecondition/NEED_SNAPSHOT error, an internal read failure is
surfaced as an explicit Internal error item (both by the frame-stream
output mapping and, for snapshots, by the sender loop, which appends
one Internal error item and stops); in `WalLogService::stream_pages`,
however, the emitted stream never contains an error item at all — an
internal read failure panics the producer (`todo!`) and the stream
simply ends, leaving any later frames undelivered. -/
theorem claim_C5 :
    map_frame_stream_output (.error .snapshotRequired) =
      .error ⟨.failedPrecondition, NEED_SNAPSHOT_ERROR_MSG⟩ ∧
    (∀ e, map_frame_stream_output (.error (.err e)) =
      .error ⟨.internal, e⟩) ∧
    (∀ (pre : List (List Nat)) (e : String),
      snapshotSenderItems (pre.map Except.ok ++ [.error e]) =
        pre.map (fun d => .ok ⟨d⟩) ++ [.error ⟨.internal, e⟩]) ∧
    (∀ (log : WalLog) (start_id : Nat),
      ((stream_pages log start_id).1.all isOkItem) = true) := by
  refine ⟨rfl, fun e => rfl, fun pre e => ?_, fun log start_id => ?_⟩
  · simpa [snapshotSenderItems] using
      snapshotSenderItems_append_ok pre [.error e]
  · exact streamPagesLoop_all_ok (log.drop start_id)

theorem hardReset_of_removeDbDir {sigs : List ServerSignal}
    (h : SystemAction.removeDbDir ∈ run_server_actions sigs) :
    ServerSignal.hardReset ∈ sigs := by
  induction sigs with
  | nil => simp [run_server_actions] at h
  | cons sig rest ih =>
    cases sig with
    | hardReset => exact List.mem_cons_self _ _
    | shutdownReq => simp [run_server_actions] at h
    | systemExited => simp [run_server_actions] at h

theorem removeDbDir_preceded (sigs : List ServerSignal) (i : Nat)
    (h : (run_server_actions sigs).get? i = some .removeDbDir) :
    2 ≤ i ∧
    (run_server_actions sigs).get? (i - 1) = some .awaitServices ∧
    (run_server_actions sigs).get? (i - 2) = some .shutdownServices := by
  induction sigs generalizing i with
  | nil =>
    rcases i with _ | n <;> simp [run_server_actions] at h
  | cons sig rest ih =>
    cases sig with
    | hardReset =>
      rcases i with _ | _ | _ | _ | n
      · simp [run_server_actions, hard_reset_actions] at h
      · simp [run_server_actions, hard_reset_actions] at h
      · simp [run_server_actions, hard_reset_actions] at h
      · exact ⟨by omega, rfl, rfl⟩
      · have h' : (run_server_actions rest).get? n =
            some .removeDbDir := h
        obtain ⟨hn, ha, hs⟩ := ih n h'
        refine ⟨by omega, ?_, ?_⟩
        · have e1 : n + 4 - 1 = (n - 1) + 4 := by omega
          rw [e1]
          simpa [run_server_actions, hard_reset_actions] using ha
        · have e2 : n + 4 - 2 = (n - 2) + 4 := by omega
          rw [e2]
          simpa [run_server_actions, hard_reset_actions] using hs
    | shutdownReq =>
      rcases i with _ | _ | n <;> simp [run_server_actions] at h
    | systemExited =>
      rcases i with _ | _ | n <;> simp [run_server_actions] at h

/-- C9: the database-directory wipe happens only after the explicit
hard-reset signal — a run of `run_server` whose observed signals never
include the hard-reset notification never performs `removeDbDir` — and
whenever the wipe does appear in the action trace it is immediately
preceded by awaiting the shut-down services, which were told to shut
down just before; `hard_reset` itself is exactly shutdown, await,
remove, in that order. -/
theorem claim_C9 (sigs : List ServerSignal) :
    (SystemAction.removeDbDir ∈ run_server_actions sigs →
      ServerSignal.hardReset ∈ sigs) ∧
    (∀ i : Nat, (run_server_actions sigs).get? i = some .removeDbDir →
      2 ≤ i ∧
      (run_server_actions sigs).get? (i - 1) = some .awaitServices ∧
      (run_server_actions sigs).get? (i - 2) = some .shutdownServices) ∧
    hard_reset_actions =
      [.shutdownServices, .awaitServices, .removeDbDir] :=
  ⟨hardReset_of_removeDbDir, removeDbDir_preceded sigs, rfl⟩

/-- C9 witness: the theorem applied to the signal sequence holding one
hard-reset notification; the wipe sits at index 3 of the trace, right
after shutdown (index 1) and await (index 2). -/
theorem claim_C9_witness :
    ServerSignal.hardReset ∈ [ServerSignal.hardReset] ∧
    (2 ≤ 3 ∧
      (run_server_actions [ServerSignal.hardReset]).get? (3 - 1) =
        some .awaitServices ∧
      (run_server_actions [ServerSignal.hardReset]).get? (3 - 2) =
        some .shutdownServices) :=
  ⟨(claim_C9 [ServerSignal.hardReset]).1 (by decide),
    (claim_C9 [ServerSignal.hardReset]).2.1 3 (by decide)⟩

/-- C10: the default `execute_one` wraps its query in a one-element
non-transactional batch and is a function of `execute_batch`'s answer
on exactly that batch; it propagates batch-level and result-level
errors, returns the first result together with the resulting state
when the result vector is non-empty, and panics (unwraps `None`,
modelled `none`) instead of returning an error when the inner result
vector of the one-query batch is empty. -/
theorem claim_C10 (eb : ExecuteBatchFn) (q : Query) :
    (∀ eb2 : ExecuteBatchFn, eb2 ⟨[q], false⟩ = eb ⟨[q], false⟩ →
      execute_one eb2 q = execute_one eb q) ∧
    (∀ e, eb ⟨[q], false⟩ = .error e →
      execute_one eb q = some (.error e)) ∧
    (∀ e st, eb ⟨[q], false⟩ = .ok (.error e, st) →
      execute_one eb q = some (.error e)) ∧
    (∀ r rest st, eb ⟨[q], false⟩ = .ok (.ok (r :: rest), st) →
      execute_one eb q = some (.ok (r, st))) ∧
    (∀ st, eb ⟨[q], false⟩ = .ok (.ok [], st) →
      execute_one eb q = none) := by
  refine ⟨fun eb2 h => ?_, fun e h => ?_, fun e st h => ?_,
    fun r rest st h => ?_, fun st h => ?_⟩ <;>
    simp [execute_one, h]

/-- C10 witness: the theorem applied to a one-result batch function
(first result returned) and to an empty-result batch function
(panic). -/
theorem claim_C10_witness :
    execute_one cBatchFn ⟨5⟩ = some (.ok (⟨5⟩, .start)) ∧
    execute_one cEmptyBatchFn ⟨5⟩ = none :=
  ⟨(claim_C10 cBatchFn ⟨5⟩).2.2.2.1 ⟨5⟩ [] .start rfl,
    (claim_C10 cEmptyBatchFn ⟨5⟩).2.2.2.2 .start rfl⟩

end Sqld
